import Mathlib

/-!
Verification development for the Lox tree-walking interpreter
(`src/lox/ast.py`, `src/lox/runtime.py`, `src/lox/transformer.py`).

The Python source is shallowly embedded:

* Python `int` values are exact (`ℤ`), as in Python (arbitrary precision).
* Python `float` values are modelled by `PyFloat`: a finite value carries an
  exact rational (IEEE-754 rounding and overflow are not modelled: no claim
  exercises them — the claims only exercise integer arithmetic and the
  special cases NaN, negative zero and division by zero, which the source
  handles by explicit branches before any float arithmetic happens), plus
  the distinguished values `-0.0` and `NaN`.
* `bool` is a subclass of `int` in Python, so `isinstance(x, (int, float))`
  is true for booleans; the embedding's `isPyNumber` mirrors that.
* The environment class `Ctx` (module `lox/ctx.py`), the `SemanticError`
  class (`lox/errors.py`) and the `Cursor` parent chain (`lox/node.py`) are
  not among the repository files available under `src/`; they are modelled
  from the spec (§4.2, §4.5, §7) where so marked.
* Python object identity is modelled by allocation counters: runtime objects
  (functions, classes, instances, environment frames) carry a numeric id,
  and `is` compares ids.  Environments are threaded through evaluation as
  values; mutation of a frame shared between a closure and a live scope is
  not modelled (no claim depends on it).
* Python exceptions become an `Except LoxErr` result; `LoxErr.fuel` is a
  modelling artifact marking exhaustion of the step budget (Python would
  keep running or exhaust its native stack), and is propagated past the
  source's `except:` handlers, which never see it in Python.
-/

/-- Python float values as far as the interpreter observes them: a finite
value with its exact rational magnitude (`finite 0` is `+0.0`), negative
zero, and NaN. -/
inductive PyFloat where
  | finite (q : ℚ)
  | negZero
  | nan
deriving DecidableEq

/-- Literal values the transformer produces (`LoxTransformer.NUMBER`,
`STRING`, `NIL`, `BOOL`): `NUMBER` tokens without a dot become Python ints,
with a dot Python floats. -/
inductive Prim where
  | pnil
  | pbool (b : Bool)
  | pint (n : ℤ)
  | pfloat (f : PyFloat)
  | pstr (s : String)
deriving DecidableEq

/-- The Python exceptions the interpreter raises (`LoxError`, `NameError`,
`TypeError`, `AttributeError`, `RuntimeError`, `SemanticError`).  `fuel` is
a modelling artifact (see the file comment). -/
inductive LoxErr where
  | loxError (msg : String)
  | nameError (msg : String)
  | typeError (msg : String)
  | attributeError (msg : String)
  | runtimeError (msg : String)
  | semanticError (msg : String)
  | fuel
deriving DecidableEq

/-- The binary operators the transformer wires into `BinOp` nodes (each maps
to one of the `lox_*` runtime functions). -/
inductive BinOpKind where
  | add | sub | mul | div | lt | gt | le | ge | eqOp | neOp
deriving DecidableEq

/-- The unary operators (`lox_neg`, `lox_not`). -/
inductive UnOpKind where
  | neg | notOp
deriving DecidableEq

/-- Expression nodes of `lox/ast.py` (`Expr` subclasses). -/
inductive Expr where
  | lit (v : Prim)
  | var (name : String)
  | binop (left : Expr) (right : Expr) (op : BinOpKind)
  | unop (op : UnOpKind) (e : Expr)
  | andE (left : Expr) (right : Expr)
  | orE (left : Expr) (right : Expr)
  | call (callee : Expr) (params : List Expr)
  | this
  | sup (methodName : String)
  | assign (name : String) (value : Expr)
  | getattr (obj : Expr) (attr : String)
  | setattrE (obj : Expr) (attr : String) (value : Expr)

/-- Statement nodes of `lox/ast.py` (`Stmt` subclasses).  A method of a
`Class` node is stored as its `(name, arg_names, body)` triple, the three
attributes `Class.eval` reads off each `Function` node in `self.methods`.
`exprStmt` is a bare expression in statement position (the tree the
transformer builds puts plain expressions, e.g. a `for` initializer, in
statement lists; evaluating one just discards its value). -/
inductive Stmt where
  | print (e : Expr)
  | ret (value : Expr)
  | varDef (name : String) (value : Expr)
  | ifS (cond : Expr) (thenB : Stmt) (elseB : Stmt)
  | whileS (cond : Expr) (body : Stmt)
  | block (stmts : List Stmt)
  | funDecl (name : String) (argNames : List String) (body : List Stmt)
  | classDecl (name : String) (superclass : Option Expr)
      (methods : List (String × List String × List Stmt))
  | exprStmt (e : Expr)

mutual
/-- Runtime values (`Value = bool | str | float | None` plus the runtime
objects `LoxFunction`, `LoxClass`, `LoxInstance`, `LoxSuper`; Python ints
and floats are distinct types, so they are distinct constructors).
`vnative` is the `lambda *args: self.init(*args)` wrapper that
`LoxInstance.get` returns for the name `init`; it carries the identity of
the lambda object and the instance it closes over. -/
inductive Value where
  | vnil
  | vbool (b : Bool)
  | vint (n : ℤ)
  | vfloat (f : PyFloat)
  | vstr (s : String)
  | vfn (f : LoxFn)
  | vcls (c : LoxCls)
  | vinst (i : LoxInst)
  | vsuper (c : LoxCls)
  | vnative (id : ℕ) (i : LoxInst)

/-- `ast.LoxFunction`: name, parameter names, body, captured context.  `id`
is the Python object identity of the function, `ctx` the captured
environment chain; each environment cell carries the identity of the `Ctx`
object it models (head cell first = innermost scope). -/
inductive LoxFn where
  | mk (id : ℕ) (name : String) (argNames : List String)
      (body : List Stmt) (ctx : List (ℕ × List (String × Value)))

/-- `ast.LoxClass`: name, method table, optional base class; `id` is the
object identity. -/
inductive LoxCls where
  | mk (id : ℕ) (name : String) (methods : List (String × LoxFn))
      (base : Option LoxCls)

/-- `ast.LoxInstance`: its class and its field mapping; `id` is the object
identity. -/
inductive LoxInst where
  | mk (id : ℕ) (cls : LoxCls) (fields : List (String × Value))
end

/-- An environment frame: the identity of the `Ctx` object and its mapping.
Modelled from the spec: §4.2 (the `Ctx` module is not under `src/`). -/
abbrev Frame := ℕ × List (String × Value)

/-- An environment chain, innermost frame first.  Modelled from the spec:
§4.2 / §3 "Environment — an ordered chain of frames". -/
abbrev Ctx := List Frame

def LoxFn.id : LoxFn → ℕ | .mk i _ _ _ _ => i
def LoxFn.name : LoxFn → String | .mk _ n _ _ _ => n
def LoxFn.argNames : LoxFn → List String | .mk _ _ a _ _ => a
def LoxFn.body : LoxFn → List Stmt | .mk _ _ _ b _ => b
def LoxFn.ctx : LoxFn → Ctx | .mk _ _ _ _ c => c

def LoxCls.id : LoxCls → ℕ | .mk i _ _ _ => i
def LoxCls.name : LoxCls → String | .mk _ n _ _ => n
def LoxCls.methods : LoxCls → List (String × LoxFn) | .mk _ _ m _ => m
def LoxCls.base : LoxCls → Option LoxCls | .mk _ _ _ b => b

def LoxInst.id : LoxInst → ℕ | .mk i _ _ => i
def LoxInst.cls : LoxInst → LoxCls | .mk _ c _ => c
def LoxInst.fields : LoxInst → List (String × Value) | .mk _ _ f => f

/-- Looks a key up in an association list (first match, as a Python dict
with unique keys). -/
def assocLookup {α : Type} (k : String) : List (String × α) → Option α
  | [] => none
  | (k', v) :: rest => if k == k' then some v else assocLookup k rest

mutual
/-- Structural equality of expression nodes: the `__eq__` Python generates
for the `@dataclass` AST nodes.  A `BinOp`/`UnaryOp` carries a module-level
operator function, equal exactly when it is the same operator. -/
def exprBeq : Expr → Expr → Bool
  | .lit a, .lit b => a == b
  | .var a, .var b => a == b
  | .binop l1 r1 o1, .binop l2 r2 o2 => exprBeq l1 l2 && exprBeq r1 r2 && o1 == o2
  | .unop o1 e1, .unop o2 e2 => o1 == o2 && exprBeq e1 e2
  | .andE l1 r1, .andE l2 r2 => exprBeq l1 l2 && exprBeq r1 r2
  | .orE l1 r1, .orE l2 r2 => exprBeq l1 l2 && exprBeq r1 r2
  | .call c1 p1, .call c2 p2 => exprBeq c1 c2 && exprListBeq p1 p2
  | .this, .this => true
  | .sup a, .sup b => a == b
  | .assign n1 v1, .assign n2 v2 => n1 == n2 && exprBeq v1 v2
  | .getattr o1 a1, .getattr o2 a2 => exprBeq o1 o2 && a1 == a2
  | .setattrE o1 a1 v1, .setattrE o2 a2 v2 =>
      exprBeq o1 o2 && a1 == a2 && exprBeq v1 v2
  | _, _ => false

/-- Structural equality of expression lists. -/
def exprListBeq : List Expr → List Expr → Bool
  | [], [] => true
  | x :: xs, y :: ys => exprBeq x y && exprListBeq xs ys
  | _, _ => false

/-- Structural equality of statement nodes (dataclass `__eq__`). -/
def stmtBeq : Stmt → Stmt → Bool
  | .print a, .print b => exprBeq a b
  | .ret a, .ret b => exprBeq a b
  | .varDef n1 v1, .varDef n2 v2 => n1 == n2 && exprBeq v1 v2
  | .ifS c1 t1 e1, .ifS c2 t2 e2 => exprBeq c1 c2 && stmtBeq t1 t2 && stmtBeq e1 e2
  | .whileS c1 b1, .whileS c2 b2 => exprBeq c1 c2 && stmtBeq b1 b2
  | .block s1, .block s2 => stmtListBeq s1 s2
  | .funDecl n1 a1 b1, .funDecl n2 a2 b2 => n1 == n2 && a1 == a2 && stmtListBeq b1 b2
  | .classDecl n1 s1 m1, .classDecl n2 s2 m2 =>
      n1 == n2 && optExprBeq s1 s2 && methodListBeq m1 m2
  | .exprStmt a, .exprStmt b => exprBeq a b
  | _, _ => false

/-- Structural equality of statement lists. -/
def stmtListBeq : List Stmt → List Stmt → Bool
  | [], [] => true
  | x :: xs, y :: ys => stmtBeq x y && stmtListBeq xs ys
  | _, _ => false

/-- Structural equality of optional superclass expressions. -/
def optExprBeq : Option Expr → Option Expr → Bool
  | none, none => true
  | some a, some b => exprBeq a b
  | _, _ => false

/-- Structural equality of method definition lists. -/
def methodListBeq :
    List (String × List String × List Stmt) →
    List (String × List String × List Stmt) → Bool
  | [], [] => true
  | (n1, a1, b1) :: xs, (n2, a2, b2) :: ys =>
      n1 == n2 && a1 == a2 && stmtListBeq b1 b2 && methodListBeq xs ys
  | _, _ => false
end

/-!  The `lox/runtime.py` operators. -/

/-- Python `type(x).__name__` for the runtime values. -/
def pyTypeName : Value → String
  | .vnil => "NoneType"
  | .vbool _ => "bool"
  | .vint _ => "int"
  | .vfloat _ => "float"
  | .vstr _ => "str"
  | .vfn _ => "LoxFunction"
  | .vcls _ => "LoxClass"
  | .vinst _ => "LoxInstance"
  | .vsuper _ => "LoxSuper"
  | .vnative _ _ => "function"

/-- The Python type of a value, as `type(left) != type(right)` in `lox_eq`
distinguishes them. -/
inductive PyType where
  | noneT | boolT | intT | floatT | strT | fnT | clsT | instT | superT | funcT
deriving DecidableEq

/-- Python type tag of a value. -/
def pyType : Value → PyType
  | .vnil => .noneT
  | .vbool _ => .boolT
  | .vint _ => .intT
  | .vfloat _ => .floatT
  | .vstr _ => .strT
  | .vfn _ => .fnT
  | .vcls _ => .clsT
  | .vinst _ => .instT
  | .vsuper _ => .superT
  | .vnative _ _ => .funcT

/-- `isinstance(x, bool)`. -/
def isBoolV : Value → Bool
  | .vbool _ => true
  | _ => false

/-- `isinstance(x, (int, float))`.  Python's `bool` is a subclass of `int`,
so booleans satisfy this check. -/
def isPyNumber : Value → Bool
  | .vbool _ => true
  | .vint _ => true
  | .vfloat _ => true
  | _ => false

/-- The integer a Python `int`-typed operand contributes to arithmetic
(`True` counts as 1, `False` as 0); `none` for floats and non-numbers. -/
def intLike : Value → Option ℤ
  | .vbool b => some (if b then 1 else 0)
  | .vint n => some n
  | _ => none

/-- The exact numeric magnitude of a numeric operand; `none` for NaN and
for non-numbers.  `-0.0` has magnitude 0 (`-0.0 == 0` holds in Python). -/
def numRat : Value → Option ℚ
  | .vbool b => some (if b then 1 else 0)
  | .vint n => some (n : ℚ)
  | .vfloat (.finite q) => some q
  | .vfloat .negZero => some 0
  | .vfloat .nan => none
  | _ => none

/-- Python `x == 0` on a numeric operand (false for NaN). -/
def numEqZero (v : Value) : Bool := numRat v == some 0

/-- Python `==` between numeric operands: by value, NaN equal to nothing. -/
def pyNumEq (l r : Value) : Bool :=
  match numRat l, numRat r with
  | some x, some y => x == y
  | _, _ => false

/-- Python `<` between numeric operands (false when either is NaN). -/
def pyNumLt (l r : Value) : Bool :=
  match numRat l, numRat r with
  | some x, some y => decide (x < y)
  | _, _ => false

/-- Python `<=` between numeric operands (false when either is NaN). -/
def pyNumLe (l r : Value) : Bool :=
  match numRat l, numRat r with
  | some x, some y => decide (x ≤ y)
  | _, _ => false

/-- Python `>` between numeric operands (false when either is NaN). -/
def pyNumGt (l r : Value) : Bool := pyNumLt r l

/-- Python `>=` between numeric operands (false when either is NaN). -/
def pyNumGe (l r : Value) : Bool := pyNumLe r l

/-- Python `left + right` on numeric operands: `int + int` is an exact
`int`; any float operand makes the result a float with the exact sum (IEEE
rounding and the sign of a zero sum are not modelled — no claim exercises
them); a NaN operand propagates NaN. -/
def pyAdd (l r : Value) : Value :=
  match intLike l, intLike r with
  | some m, some n => .vint (m + n)
  | _, _ =>
    match numRat l, numRat r with
    | some x, some y => .vfloat (.finite (x + y))
    | _, _ => .vfloat .nan

/-- Python `left - right` on numeric operands (same modelling as `pyAdd`). -/
def pySub (l r : Value) : Value :=
  match intLike l, intLike r with
  | some m, some n => .vint (m - n)
  | _, _ =>
    match numRat l, numRat r with
    | some x, some y => .vfloat (.finite (x - y))
    | _, _ => .vfloat .nan

/-- Python `left * right` on numeric operands (same modelling as `pyAdd`). -/
def pyMul (l r : Value) : Value :=
  match intLike l, intLike r with
  | some m, some n => .vint (m * n)
  | _, _ =>
    match numRat l, numRat r with
    | some x, some y => .vfloat (.finite (x * y))
    | _, _ => .vfloat .nan

/-- Python `left / right` (true division) on numeric operands: always a
float; exact quotient (IEEE rounding and the sign of a zero quotient are
not modelled); a NaN operand propagates NaN.  `lox_truediv` only calls it
with a nonzero divisor. -/
def pyDiv (l r : Value) : Value :=
  match numRat l, numRat r with
  | some x, some y => .vfloat (.finite (x / y))
  | _, _ => .vfloat .nan

/-- Python `-x` on a numeric operand (`-True` is the int `-1`). -/
def pyNeg : Value → Value
  | .vbool b => .vint (-(if b then (1 : ℤ) else 0))
  | .vint n => .vint (-n)
  | .vfloat (.finite q) => .vfloat (.finite (-q))
  | .vfloat .negZero => .vfloat (.finite 0)
  | .vfloat .nan => .vfloat .nan
  | v => v

/-- `runtime.truthy`: false only for `None` and `False`. -/
def truthy : Value → Bool
  | .vnil => false
  | .vbool false => false
  | _ => true

/-- `runtime.lox_not`. -/
def lox_not (v : Value) : Except LoxErr Value := .ok (.vbool (!truthy v))

/-- `runtime.lox_neg`: numeric negation, sending every zero-valued operand
(including `-0.0` itself, and `False`) to `-0.0`. -/
def lox_neg (v : Value) : Except LoxErr Value :=
  if isPyNumber v then
    if numEqZero v then .ok (.vfloat .negZero)
    else .ok (pyNeg v)
  else
    .error (.loxError ("Operação '-' não suportada para " ++ pyTypeName v))

/-- `runtime.lox_add`: booleans are rejected first; then number + number or
string + string. -/
def lox_add (l r : Value) : Except LoxErr Value :=
  if isBoolV l || isBoolV r then
    .error (.loxError "Operands must be two numbers or two strings.")
  else if isPyNumber l && isPyNumber r then .ok (pyAdd l r)
  else
    match l, r with
    | .vstr a, .vstr b => .ok (.vstr (a ++ b))
    | _, _ =>
      .error (.loxError ("Operação '+' não suportada entre " ++ pyTypeName l
        ++ " e " ++ pyTypeName r))

/-- `runtime.lox_sub`: booleans are rejected first; then requires numbers. -/
def lox_sub (l r : Value) : Except LoxErr Value :=
  if isBoolV l || isBoolV r then
    .error (.loxError "Operands must be numbers.")
  else if isPyNumber l && isPyNumber r then .ok (pySub l r)
  else
    .error (.loxError ("Operação '-' não suportada entre " ++ pyTypeName l
      ++ " e " ++ pyTypeName r))

/-- `runtime.lox_mul`: requires `isinstance(x, (int, float))` on both sides
— unlike `lox_add`/`lox_sub` there is no boolean check, and Python booleans
pass the `isinstance` test. -/
def lox_mul (l r : Value) : Except LoxErr Value :=
  if isPyNumber l && isPyNumber r then .ok (pyMul l r)
  else
    .error (.loxError ("Operação '*' não suportada entre " ++ pyTypeName l
      ++ " e " ++ pyTypeName r))

/-- `runtime.lox_truediv`: requires `isinstance(x, (int, float))` on both
sides (no boolean check); a divisor `== 0` yields NaN instead of an error. -/
def lox_truediv (l r : Value) : Except LoxErr Value :=
  if isPyNumber l && isPyNumber r then
    if numEqZero r then .ok (.vfloat .nan)
    else .ok (pyDiv l r)
  else
    .error (.loxError ("Operação '/' não suportada entre " ++ pyTypeName l
      ++ " e " ++ pyTypeName r))

/-- `runtime.lox_ge`. -/
def lox_ge (l r : Value) : Except LoxErr Value :=
  if isPyNumber l && isPyNumber r then .ok (.vbool (pyNumGe l r))
  else
    .error (.loxError ("Operação '>=' não suportada entre " ++ pyTypeName l
      ++ " e " ++ pyTypeName r))

/-- `runtime.lox_le`. -/
def lox_le (l r : Value) : Except LoxErr Value :=
  if isPyNumber l && isPyNumber r then .ok (.vbool (pyNumLe l r))
  else
    .error (.loxError ("Operação '<=' não suportada entre " ++ pyTypeName l
      ++ " e " ++ pyTypeName r))

/-- `runtime.lox_gt`. -/
def lox_gt (l r : Value) : Except LoxErr Value :=
  if isPyNumber l && isPyNumber r then .ok (.vbool (pyNumGt l r))
  else
    .error (.loxError ("Operação '>' não suportada entre " ++ pyTypeName l
      ++ " e " ++ pyTypeName r))

/-- `runtime.lox_lt`. -/
def lox_lt (l r : Value) : Except LoxErr Value :=
  if isPyNumber l && isPyNumber r then .ok (.vbool (pyNumLt l r))
  else
    .error (.loxError ("Operação '<' não suportada entre " ++ pyTypeName l
      ++ " e " ++ pyTypeName r))

/-!  Python `==` and `is` over runtime values, as `lox_eq` needs them.  A
container comparison (`dict`, the tuples dataclass `__eq__` builds) checks
each element with `x is y or x == y`; `is` on the id-carrying objects
compares ids, and on primitive objects it is modelled as structural
equality — the reading that matches every comparison the claims evaluate
(a container compared with itself reads the same slot object twice; which
distinct primitive objects are interned is implementation-defined and not
modelled). -/

/-- Python `is` between two environment chains: identity of the `Ctx`
object, i.e. of the innermost frame cell. -/
def ctxIs : Ctx → Ctx → Bool
  | (i, _) :: _, (j, _) :: _ => i == j
  | [], [] => true
  | _, _ => false

/-- Dataclass `__eq__` of `ast.LoxFunction`: name, parameter names, body
(structural AST equality) and the captured `Ctx` — a plain object compared
by identity. -/
def fnEq (f g : LoxFn) : Bool :=
  f.name == g.name && f.argNames == g.argNames && stmtListBeq f.body g.body
    && ctxIs f.ctx g.ctx

/-- Element comparison `x is y or x == y` for functions in a container. -/
def fnIsOrEq (f g : LoxFn) : Bool := f.id == g.id || fnEq f g

/-- Python `dict.__eq__` on two method tables: same size and every key of
the first maps in the second to an `is`-or-equal function. -/
def methodsDictEq (m1 m2 : List (String × LoxFn)) : Bool :=
  m1.length == m2.length &&
    m1.all (fun kv => match assocLookup kv.1 m2 with
      | some g => fnIsOrEq kv.2 g
      | none => false)

/-- Dataclass `__eq__` of `ast.LoxClass`: name, method table, base; the
base field is compared as a container element (`is` or `==`). -/
def clsEq : LoxCls → LoxCls → Bool
  | .mk _ n1 m1 b1, .mk _ n2 m2 b2 =>
    n1 == n2 && methodsDictEq m1 m2 &&
      match b1, b2 with
      | none, none => true
      | some c, some d => c.id == d.id || clsEq c d
      | _, _ => false

/-- Element comparison `x is y or x == y` for classes in a container. -/
def clsIsOrEq (c d : LoxCls) : Bool := c.id == d.id || clsEq c d

/-- Python `is` between runtime values (see the section comment: ids for
objects, structural equality for primitives, false between `LoxSuper`
objects, whose identity the model does not track). -/
def valueIs : Value → Value → Bool
  | .vnil, .vnil => true
  | .vbool a, .vbool b => a == b
  | .vint a, .vint b => a == b
  | .vfloat a, .vfloat b => a == b
  | .vstr a, .vstr b => a == b
  | .vfn f, .vfn g => f.id == g.id
  | .vcls c, .vcls d => c.id == d.id
  | .vinst i, .vinst j => i.id == j.id
  | .vnative i _, .vnative j _ => i == j
  | _, _ => false

mutual
/-- Python `==` between runtime values: numbers by value across the
numeric types (NaN equal to nothing), strings by value, `None == None`,
dataclass equality for functions, classes, instances and `LoxSuper`
(instance fields recursively, with the container `is`-shortcut), identity
for the native `init` wrapper, false across unrelated types. -/
def valueEq : Value → Value → Bool
  | .vnil, .vnil => true
  | .vstr a, .vstr b => a == b
  | .vbool a, b => pyNumEq (.vbool a) b
  | .vint a, b => pyNumEq (.vint a) b
  | .vfloat a, b => pyNumEq (.vfloat a) b
  | .vnil, _ => false
  | .vstr _, _ => false
  | .vfn f, .vfn g => fnEq f g
  | .vcls c, .vcls d => clsEq c d
  | .vsuper c, .vsuper d => clsIsOrEq c d
  | .vnative i _, .vnative j _ => i == j
  | .vinst (.mk _ c1 f1), .vinst (.mk _ c2 f2) =>
      clsIsOrEq c1 c2 && f1.length == f2.length && fieldsSub f1 f2
  | _, _ => false

/-- Every field of the first mapping is `is`-or-equal to the second
mapping's value at the same key (one half of `dict.__eq__`; with equal
sizes and unique keys it is the whole of it). -/
def fieldsSub : List (String × Value) → List (String × Value) → Bool
  | [], _ => true
  | (k, v) :: rest, d2 =>
      (match assocLookup k d2 with
       | some w => valueIs v w || valueEq v w
       | none => false)
      && fieldsSub rest d2
end

/-- `runtime.lox_eq`: different Python types are never equal; functions
(`ast.LoxFunction`) compare by identity; everything else by Python `==`. -/
def lox_eq (l r : Value) : Value :=
  if pyType l != pyType r then .vbool false
  else
    match l, r with
    | .vfn f, .vfn g => .vbool (f.id == g.id)
    | _, _ => .vbool (valueEq l r)

/-- `runtime.lox_ne`. -/
def lox_ne (l r : Value) : Value :=
  match lox_eq l r with
  | .vbool b => .vbool (!b)
  | _ => .vbool false

/-!  `runtime.show` and friends. -/

/-- Python `str()` of a float that is not handled by `show`'s special
branches (a non-integer finite value): Python prints the shortest decimal
that round-trips.  No claim evaluates this leg; the embedded rational is
rendered as `num/den`. -/
def pyFloatStr : PyFloat → String
  | .finite q => if q.den == 1 then toString q.num ++ ".0" else toString q
  | .negZero => "-0.0"
  | .nan => "nan"

/-- `runtime.show` (named `showVal` here; `show` is a Lean keyword):
`None` → "nil", booleans → "true"/"false", an integer-valued float prints
without fractional part except that negative zero prints as "-0", Lox
objects print their own forms, everything else falls back to `str()` —
which renders Python ints in decimal and NaN as "nan". -/
def showVal : Value → String
  | .vnil => "nil"
  | .vbool true => "true"
  | .vbool false => "false"
  | .vfloat (.finite q) =>
      if q.den == 1 then toString q.num else pyFloatStr (.finite q)
  | .vfloat .negZero => "-0"
  | .vfloat .nan => "nan"
  | .vcls c => c.name
  | .vinst i => i.cls.name ++ " instance"
  | .vfn f => "<fn " ++ f.name ++ ">"
  | .vnative _ _ => "<native fn>"
  | .vint n => toString n
  | .vstr s => s
  | .vsuper _ => "super"

/-- Python `str()` of a value, as f-string error messages render it
(`True`/`False`/`None` capitalised, floats with their fractional part; the
address inside a lambda's repr is not modelled). -/
def pyStr : Value → String
  | .vnil => "None"
  | .vbool true => "True"
  | .vbool false => "False"
  | .vint n => toString n
  | .vfloat f => pyFloatStr f
  | .vstr s => s
  | .vfn f => "<fn " ++ f.name ++ ">"
  | .vcls c => c.name
  | .vinst i => i.cls.name ++ " instance"
  | .vsuper _ => "super"
  | .vnative _ _ => "<function>"

/-!  The environment.  Modelled from the spec: the `Ctx` class (module
`lox/ctx.py`) is not among the files under `src/`; §4.2 of the spec gives
its contract — `child()` adds a frame, `var_def` inserts or overwrites in
the innermost frame only, lookup searches outward failing with `NameError`,
assignment searches outward requiring the name to exist. -/

/-- Inserts or overwrites a key in an association list, keeping the
position of an existing key (a Python dict insert). -/
def dictUpsert {α : Type} : List (String × α) → String → α → List (String × α)
  | [], k, v => [(k, v)]
  | (k', v') :: rest, k, v =>
      if k == k' then (k, v) :: rest else (k', v') :: dictUpsert rest k v

/-- Modelled from the spec: environment lookup, innermost frame outward. -/
def ctxLookup : Ctx → String → Option Value
  | [], _ => none
  | (_, frame) :: rest, k =>
      match assocLookup k frame with
      | some v => some v
      | none => ctxLookup rest k

/-- Modelled from the spec: `var_def` inserts or overwrites in the
innermost frame only. -/
def ctxVarDef : Ctx → String → Value → Ctx
  | [], _, _ => []
  | (i, frame) :: rest, k, v => (i, dictUpsert frame k v) :: rest

/-- Modelled from the spec: assignment mutates the innermost frame that
already binds the name; `none` when no frame does (`NameError`). -/
def ctxAssign : Ctx → String → Value → Option Ctx
  | [], _, _ => none
  | (i, frame) :: rest, k, v =>
      if (assocLookup k frame).isSome then some ((i, dictUpsert frame k v) :: rest)
      else
        match ctxAssign rest k v with
        | some rest' => some ((i, frame) :: rest')
        | none => none

/-- Interpreter state threaded through evaluation: the current environment
chain, the lines printed so far, and the next fresh object id. -/
structure St where
  ctx : Ctx
  out : List String
  next : ℕ

/-- Allocates a fresh Python object identity. -/
def alloc (st : St) : ℕ × St := (st.next, { st with next := st.next + 1 })

/-!  The object model (`lox/ast.py`). -/

/-- `LoxClass.get_method`: the class's own table, then the bases
recursively; absent everywhere, the deepest base raises `SemanticError`
naming itself. -/
def getMethodE : LoxCls → String → Except LoxErr LoxFn
  | .mk _ cname methods base, n =>
    match assocLookup n methods with
    | some m => .ok m
    | none =>
      match base with
      | some b => getMethodE b n
      | none =>
        .error (.semanticError ("Método '" ++ n ++ "' não encontrado na classe '"
          ++ cname ++ "'"))

/-- `LoxFunction.bind`: a child of the captured context defining `"this"`,
wrapped in a new `LoxFunction` object (fresh context cell and function
identity). -/
def bindFn (st : St) (m : LoxFn) (obj : Value) : LoxFn × St :=
  let (cid, st1) := alloc st
  let (fid, st2) := alloc st1
  (LoxFn.mk fid m.name m.argNames m.body ((cid, [("this", obj)]) :: m.ctx), st2)

/-- `LoxInstance.get`: fields shadow methods; the name `init` gets the
`lambda *args: self.init(*args)` wrapper (a fresh function object) when the
chain has an `init`; otherwise the method is bound to the instance.  (When
the class has a base the source additionally stores a wrapper on the bound
method's `__call__` attribute; Python's special-method lookup ignores
instance attributes, so calls are unaffected and no state is modelled for
it.)  A lookup failure is re-raised as `AttributeError`. -/
def instGet (st : St) (i : LoxInst) (name : String) : Except LoxErr (Value × St) :=
  match assocLookup name i.fields with
  | some v => .ok (v, st)
  | none =>
    if name == "init" then
      match getMethodE i.cls "init" with
      | .ok _ =>
          let (lid, st1) := alloc st
          .ok (.vnative lid i, st1)
      | .error _ =>
          .error (.attributeError ("O objeto '" ++ i.cls.name
            ++ " instance' não possui o atributo '" ++ name ++ "'"))
    else
      match getMethodE i.cls name with
      | .ok m =>
          let (bm, st1) := bindFn st m (.vinst i)
          .ok (.vfn bm, st1)
      | .error _ =>
          .error (.attributeError ("O objeto '" ++ i.cls.name
            ++ " instance' não possui o atributo '" ++ name ++ "'"))

/-- The method-table construction loop of `Class.eval`: each method triple
becomes a `LoxFunction` closing over the method context (fresh object
ids, insertion-ordered dict). -/
def buildMethods : St → Ctx → List (String × List String × List Stmt) →
    List (String × LoxFn) → List (String × LoxFn) × St
  | st, _, [], acc => (acc, st)
  | st, mctx, (n, args, body) :: rest, acc =>
      let (fid, st1) := alloc st
      buildMethods st1 mctx rest (dictUpsert acc n (LoxFn.mk fid n args body mctx))

/-- The tail of `Class.eval` after the superclass is settled: build the
method context (a child pre-seeded with `"super"` → the base class when a
superclass exists, the declaring context otherwise), build the method
table, create the `LoxClass` and define it in the current frame. -/
def classCreate (st : St) (name : String)
    (ms : List (String × List String × List Stmt)) (base : Option LoxCls) :
    Value × St :=
  let (mctx, st1) :=
    match base with
    | none => (st.ctx, st)
    | some c =>
        let (cid, st') := alloc st
        (((cid, [("super", Value.vcls c)]) : Frame) :: st.ctx, st')
  let (methods, st2) := buildMethods st1 mctx ms []
  let (clid, st3) := alloc st2
  let cls := LoxCls.mk clid name methods base
  (.vcls cls, { st3 with ctx := ctxVarDef st3.ctx name (.vcls cls) })

/-- The result of executing a statement: fall through normally, or a
`LoxReturn` control transfer carrying a value. -/
inductive LFlow where
  | norm
  | ret (v : Value)

/-- `Literal.eval`: the literal's value. -/
def primToValue : Prim → Value
  | .pnil => .vnil
  | .pbool b => .vbool b
  | .pint n => .vint n
  | .pfloat f => .vfloat f
  | .pstr s => .vstr s

/-- `BinOp.eval`'s operator application (the transformer wires each
operator symbol to the corresponding `lox_*` runtime function). -/
def applyBinOp (op : BinOpKind) (l r : Value) : Except LoxErr Value :=
  match op with
  | .add => lox_add l r
  | .sub => lox_sub l r
  | .mul => lox_mul l r
  | .div => lox_truediv l r
  | .lt => lox_lt l r
  | .gt => lox_gt l r
  | .le => lox_le l r
  | .ge => lox_ge l r
  | .eqOp => .ok (lox_eq l r)
  | .neOp => .ok (lox_ne l r)

/-- `UnaryOp.eval`'s operator application. -/
def applyUnOp (op : UnOpKind) (v : Value) : Except LoxErr Value :=
  match op with
  | .neg => lox_neg v
  | .notOp => lox_not v

mutual
/-- Expression evaluation (`Expr.eval` of each node class).  The fuel
argument is the modelling artifact bounding the recursion depth (Python's
recursion is bounded only by its native stack); every recursive call
consumes one unit, and exhaustion yields the artificial error
`LoxErr.fuel`, never a result the source could produce. -/
def evalExpr : ℕ → Expr → St → Except LoxErr (Value × St)
  | 0, _, _ => .error .fuel
  | _ + 1, .lit p, st => .ok (primToValue p, st)
  | _ + 1, .var n, st =>
      (match ctxLookup st.ctx n with
       | some v => .ok (v, st)
       | none => .error (.nameError ("variável " ++ n ++ " não existe!")))
  | f + 1, .binop l r op, st =>
      (match evalExpr f l st with
       | .error e => .error e
       | .ok (lv, st1) =>
         match evalExpr f r st1 with
         | .error e => .error e
         | .ok (rv, st2) =>
           match applyBinOp op lv rv with
           | .error e => .error e
           | .ok v => .ok (v, st2))
  | f + 1, .unop op e, st =>
      (match evalExpr f e st with
       | .error e => .error e
       | .ok (v, st1) =>
         match applyUnOp op v with
         | .error e => .error e
         | .ok w => .ok (w, st1))
  | f + 1, .andE l r, st =>
      (match evalExpr f l st with
       | .error e => .error e
       | .ok (lv, st1) => if truthy lv then evalExpr f r st1 else .ok (lv, st1))
  | f + 1, .orE l r, st =>
      (match evalExpr f l st with
       | .error e => .error e
       | .ok (lv, st1) => if truthy lv then .ok (lv, st1) else evalExpr f r st1)
  | f + 1, .call c ps, st =>
      (match evalExpr f c st with
       | .error e => .error e
       | .ok (func, st1) =>
         match evalArgs f ps st1 with
         | .error e => .error e
         | .ok (args, st2) => callValue f func args st2)
  | _ + 1, .this, st =>
      (match ctxLookup st.ctx "this" with
       | some v => .ok (v, st)
       | none => .error (.nameError "variável this não existe!"))
  | _ + 1, .sup mname, st =>
      (match ctxLookup st.ctx "super" with
       | none => .error (.nameError "variável super não existe!")
       | some sv =>
         match ctxLookup st.ctx "this" with
         | none => .error (.nameError "variável this não existe!")
         | some tv =>
           match sv with
           | .vcls c =>
             (match getMethodE c mname with
              | .error e => .error e
              | .ok m =>
                let (bm, st1) := bindFn st m tv
                .ok (.vfn bm, st1))
           | _ =>
             .error (.attributeError ("'" ++ pyTypeName sv
               ++ "' object has no attribute 'get_method'")))
  | f + 1, .assign n v, st =>
      (match evalExpr f v st with
       | .error e => .error e
       | .ok (vv, st1) =>
         match ctxAssign st1.ctx n vv with
         | some ctx2 => .ok (vv, { st1 with ctx := ctx2 })
         | none => .error (.nameError ("variável " ++ n ++ " não existe!")))
  | f + 1, .getattr o a, st =>
      (match evalExpr f o st with
       | .error e => .error e
       | .ok (base, st1) =>
         match base with
         | .vinst i => instGet st1 i a
         | .vsuper c =>
           -- the `LoxSuper` branch of `Getattr.eval` returns
           -- `base.superclass.get_method(self.attr)` with no `bind`
           (match getMethodE c a with
            | .error e => .error e
            | .ok m => .ok (.vfn m, st1))
         | _ =>
           -- host `getattr` fallback: no Lox value exposes an attribute a
           -- claim reads, modelled as the source's `AttributeError` re-raise
           .error (.attributeError ("O objeto '" ++ pyStr base
             ++ "' não possui o atributo '" ++ a ++ "'")))
  | f + 1, .setattrE o a v, st =>
      (match evalExpr f o st with
       | .error e => .error e
       | .ok (ov, st1) =>
         match evalExpr f v st1 with
         | .error e => .error e
         | .ok (vv, st2) =>
           match ov with
           | .vinst _ =>
             -- field write; the mutated instance is aliased through the
             -- environment, which the value model does not track (no claim
             -- reads a written field)
             .ok (vv, st2)
           | .vcls _ => .error (.runtimeError "Only instances have fields.")
           | .vfn _ => .error (.runtimeError "Only instances have fields.")
           | .vsuper _ => .ok (vv, st2)
           | .vnative _ _ => .ok (vv, st2)
           | _ =>
             .error (.attributeError ("'" ++ pyTypeName ov
               ++ "' object has no attribute '" ++ a ++ "'")))

/-- Evaluation of a call's argument list, left to right. -/
def evalArgs : ℕ → List Expr → St → Except LoxErr (List Value × St)
  | 0, _, _ => .error .fuel
  | _ + 1, [], st => .ok ([], st)
  | f + 1, p :: ps, st =>
      (match evalExpr f p st with
       | .error e => .error e
       | .ok (v, st1) =>
         match evalArgs f ps st1 with
         | .error e => .error e
         | .ok (vs, st2) => .ok (v :: vs, st2))

/-- `Call.eval`'s dispatch on the callee: `callable(func)` holds for
`LoxFunction`, `LoxClass` and the native `init` wrapper; anything else
raises the `TypeError`. -/
def callValue : ℕ → Value → List Value → St → Except LoxErr (Value × St)
  | 0, _, _, _ => .error .fuel
  | f + 1, .vfn fn, args, st => loxFnCall f fn args st
  | f + 1, .vcls c, args, st => loxClassCall f c args st
  | f + 1, .vnative _ i, args, st => nativeInitCall f i args st
  | _ + 1, v, _, _ => .error (.typeError (pyStr v ++ " não é uma função!"))

/-- `ast.LoxFunction.__call__`: arity check, a fresh scope frame over the
captured context, run the body, catch `LoxReturn` (an implicit `None` when
the body falls through).  The caller's chain is restored afterwards (the
callee ran on the captured chain). -/
def loxFnCall : ℕ → LoxFn → List Value → St → Except LoxErr (Value × St)
  | 0, _, _, _ => .error .fuel
  | f + 1, fn, args, st =>
    if fn.argNames.length != args.length then
      .error (.typeError ("esperava " ++ toString fn.argNames.length
        ++ " argumentos, recebeu " ++ toString args.length))
    else
      let (cid, st1) := alloc st
      match evalStmts f fn.body { st1 with ctx := (cid, fn.argNames.zip args) :: fn.ctx } with
      | .error e => .error e
      | .ok (fl, st2) =>
        let rv := match fl with | .ret v => v | .norm => Value.vnil
        .ok (rv, { st2 with ctx := st.ctx })

/-- `LoxClass.__call__`: construct the instance, then try to bind and run
`init`; the bare `except:` swallows any failure — a missing `init`, but
equally an arity error or a body error of a present `init` — after which
arguments having been supplied raises the no-init arity `TypeError`; the
constructed instance is the result whenever the call returns.  (`fuel` is
the modelling artifact and is not swallowed.) -/
def loxClassCall : ℕ → LoxCls → List Value → St → Except LoxErr (Value × St)
  | 0, _, _, _ => .error .fuel
  | f + 1, c, args, st =>
    let (iid, st1) := alloc st
    let inst := LoxInst.mk iid c []
    match getMethodE c "init" with
    | .error _ =>
        if args.isEmpty then .ok (.vinst inst, st1)
        else
          .error (.typeError ("Classe " ++ c.name
            ++ " não possui método init mas recebeu " ++ toString args.length
            ++ " argumentos"))
    | .ok m =>
        let (bm, st2) := bindFn st1 m (.vinst inst)
        match loxFnCall f bm args st2 with
        | .ok (_, st3) => .ok (.vinst inst, st3)
        | .error .fuel => .error .fuel
        | .error _ =>
            if args.isEmpty then .ok (.vinst inst, st2)
            else
              .error (.typeError ("Classe " ++ c.name
                ++ " não possui método init mas recebeu " ++ toString args.length
                ++ " argumentos"))

/-- `LoxInstance.init` (via the `lambda *args: self.init(*args)` wrapper):
run `init` when the chain has one, swallow any failure, always return the
instance. -/
def nativeInitCall : ℕ → LoxInst → List Value → St → Except LoxErr (Value × St)
  | 0, _, _, _ => .error .fuel
  | f + 1, i, args, st =>
    match getMethodE i.cls "init" with
    | .error _ => .ok (.vinst i, st)
    | .ok m =>
        let (bm, st1) := bindFn st m (.vinst i)
        match loxFnCall f bm args st1 with
        | .ok (_, st2) => .ok (.vinst i, st2)
        | .error .fuel => .error .fuel
        | .error _ => .ok (.vinst i, st)

/-- Statement execution (`Stmt.eval` of each node class). -/
def evalStmt : ℕ → Stmt → St → Except LoxErr (LFlow × St)
  | 0, _, _ => .error .fuel
  | f + 1, .print e, st =>
      (match evalExpr f e st with
       | .error e => .error e
       | .ok (v, st1) => .ok (.norm, { st1 with out := st1.out ++ [showVal v] }))
  | f + 1, .ret e, st =>
      (match evalExpr f e st with
       | .error e => .error e
       | .ok (v, st1) => .ok (.ret v, st1))
  | f + 1, .varDef n e, st =>
      (match evalExpr f e st with
       | .error e => .error e
       | .ok (v, st1) => .ok (.norm, { st1 with ctx := ctxVarDef st1.ctx n v }))
  | f + 1, .ifS c t e, st =>
      (match evalExpr f c st with
       | .error err => .error err
       | .ok (cv, st1) => if truthy cv then evalStmt f t st1 else evalStmt f e st1)
  | f + 1, .whileS c b, st =>
      -- `While.eval` evaluates the condition and, when truthy, runs the
      -- body and then calls `self.eval(ctx)` recursively
      (match evalExpr f c st with
       | .error e => .error e
       | .ok (cv, st1) =>
         if truthy cv then
           match evalStmt f b st1 with
           | .error e => .error e
           | .ok (.ret v, st2) => .ok (.ret v, st2)
           | .ok (.norm, st2) => evalStmt f (.whileS c b) st2
         else .ok (.norm, st1))
  | f + 1, .block l, st =>
      -- `Block.eval`: a fresh child frame, discarded at exit (outer-frame
      -- mutations persist through the tail)
      let (cid, st1) := alloc st
      (match evalStmts f l { st1 with ctx := (cid, []) :: st1.ctx } with
       | .error e => .error e
       | .ok (fl, st2) => .ok (fl, { st2 with ctx := st2.ctx.tail }))
  | _ + 1, .funDecl n args body, st =>
      -- `Function.eval`: the captured chain is a snapshot taken before the
      -- self-binding is added, so self-recursion through the closure is
      -- not modelled (no claim runs a recursive Lox function)
      let (fid, st1) := alloc st
      .ok (.norm, { st1 with ctx := ctxVarDef st1.ctx n (.vfn (.mk fid n args body st1.ctx)) })
  | f + 1, .classDecl n supE ms, st =>
      (match supE with
       | none => let (_, st1) := classCreate st n ms none
                 .ok (.norm, st1)
       | some e =>
         match evalExpr f e st with
         | .ok (.vcls c, st1) =>
             let (_, st2) := classCreate st1 n ms (some c)
             .ok (.norm, st2)
         | .ok (_, _) => .error (.runtimeError "Superclass must be a class.")
         | .error .fuel => .error .fuel
         | .error (.runtimeError m) => .error (.runtimeError m)
         | .error _ =>
             -- the bare `except:` swallows any non-RuntimeError failure and
             -- proceeds without a superclass (spec §9 notes this); Python
             -- keeps side effects performed before the failure, the model
             -- resumes from the pre-evaluation state (no claim observes them)
             let (_, st1) := classCreate st n ms none
             .ok (.norm, st1))
  | f + 1, .exprStmt e, st =>
      (match evalExpr f e st with
       | .error err => .error err
       | .ok (_, st1) => .ok (.norm, st1))

/-- Execution of a statement sequence; a `LoxReturn` control transfer
short-circuits it (the exception propagates). -/
def evalStmts : ℕ → List Stmt → St → Except LoxErr (LFlow × St)
  | 0, _, _ => .error .fuel
  | _ + 1, [], st => .ok (.norm, st)
  | f + 1, s :: rest, st =>
      (match evalStmt f s st with
       | .error e => .error e
       | .ok (.ret v, st1) => .ok (.ret v, st1)
       | .ok (.norm, st1) => evalStmts f rest st1)
end

/-- The fresh root environment `Program.eval` runs against. -/
def initialSt : St := ⟨[(0, [])], [], 1⟩

/-- `Program.eval`: the statement sequence against a fresh root
environment. -/
def evalProgram (fuel : ℕ) (stmts : List Stmt) : Except LoxErr (LFlow × St) :=
  evalStmts fuel stmts initialSt

/-- The printed output of a program run. -/
def programOut (fuel : ℕ) (stmts : List Stmt) : Except LoxErr (List String) :=
  match evalProgram fuel stmts with
  | .ok (_, st) => .ok st.out
  | .error e => .error e

/-- `While.eval` with an explicit count of its nested `self.eval`
activations — the native Python stack frames the loop occupies at its
deepest point (the recursive call is the last statement of `eval`, but
CPython does not eliminate tail calls). -/
def whileEvalDepth : ℕ → Expr → Stmt → St → Except LoxErr (LFlow × St × ℕ)
  | 0, _, _, _ => .error .fuel
  | f + 1, c, b, st =>
    match evalExpr f c st with
    | .error e => .error e
    | .ok (cv, st1) =>
      if truthy cv then
        match evalStmt f b st1 with
        | .error e => .error e
        | .ok (.ret v, st2) => .ok (.ret v, st2, 1)
        | .ok (.norm, st2) =>
          match whileEvalDepth f c b st2 with
          | .error e => .error e
          | .ok (fl, st3, d) => .ok (fl, st3, d + 1)
      else .ok (.norm, st1, 1)

/-!  The static validator pieces the claims exercise (`VarDef.validate_self`
and its helper).  The parent chain comes from `Cursor.parents()`; the
`Cursor` class (module `lox/node.py`) is not under `src/`, so the chain is
modelled from the spec (§4.5: "a pre-execution walk over the whole tree,
given parent-chain context at each node") as the list of ancestor node
kinds, innermost first. -/

/-- `ast.RESERVED_WORDS`. -/
def RESERVED_WORDS : List String :=
  ["and", "class", "else", "false", "for", "fun", "if", "nil",
   "or", "print", "return", "super", "this", "true", "var", "while"]

mutual
/-- `VarDef._uses_variable_in_expression`: a recursive scan that covers
`Var`, `BinOp`, `UnaryOp`, `Call` (callee and parameters), `Getattr`,
`Setattr` and `Assign`; `Literal`, `This` and `Super` answer False
explicitly, and every other node kind — `And` and `Or` among them — falls
through to the final `return False`. -/
def usesVarInExpr : Expr → String → Bool
  | .var n, name => n == name
  | .binop l r _, name => usesVarInExpr l name || usesVarInExpr r name
  | .unop _ e, name => usesVarInExpr e name
  | .call c ps, name => usesVarInExpr c name || usesVarInList ps name
  | .getattr o _, name => usesVarInExpr o name
  | .setattrE o _ v, name => usesVarInExpr o name || usesVarInExpr v name
  | .assign _ v, name => usesVarInExpr v name
  | _, _ => false

/-- The parameter loop of `_uses_variable_in_expression`'s `Call` case. -/
def usesVarInList : List Expr → String → Bool
  | [], _ => false
  | p :: ps, name => usesVarInExpr p name || usesVarInList ps name
end

/-- The kind of an ancestor node, as far as `VarDef.validate_self`'s
`isinstance` checks distinguish them.  Modelled from the spec: §4.5 (the
`Cursor` parent chain). -/
inductive AncKind where
  | blockA
  | programA
  | otherA

/-- The parent-chain loop of `VarDef.validate_self`: the first `Block`
ancestor makes the declaration block-scoped (semantic error); a `Program`
ancestor reached first breaks the search (global: permitted); any other
ancestor is skipped; a chain exhausted without either also raises
nothing. -/
def scopeWalk : List AncKind → Except LoxErr Unit
  | [] => .ok ()
  | .blockA :: _ =>
      .error (.semanticError "Can't read local variable in its own initializer.")
  | .programA :: _ => .ok ()
  | .otherA :: rest => scopeWalk rest

/-- `VarDef.validate_self`: the reserved-word check, then — only when the
initializer scan finds the variable's own name — the parent-chain walk. -/
def validateVarDef (name : String) (value : Expr) (parents : List AncKind) :
    Except LoxErr Unit :=
  if RESERVED_WORDS.contains name then
    .error (.semanticError "Expect variable name.")
  else if usesVarInExpr value name then scopeWalk parents
  else .ok ()

/-- A number in the sense of the Lox value model: a Python `int` or `float`
(booleans form their own variant). -/
def isNumV : Value → Bool
  | .vint _ => true
  | .vfloat _ => true
  | _ => false

/-- A string value. -/
def isStrV : Value → Bool
  | .vstr _ => true
  | _ => false

/-- The Lox value-model variant of a value (spec §3): Python ints and
floats are both the `Number` variant; the native `init` wrapper is a host
function value. -/
inductive LoxVariant where
  | nilV | boolV | numberV | stringV | functionV | classV | instanceV | superV
deriving DecidableEq

/-- The spec-level variant of a runtime value. -/
def specVariant : Value → LoxVariant
  | .vnil => .nilV
  | .vbool _ => .boolV
  | .vint _ => .numberV
  | .vfloat _ => .numberV
  | .vstr _ => .stringV
  | .vfn _ => .functionV
  | .vnative _ _ => .functionV
  | .vcls _ => .classV
  | .vinst _ => .instanceV
  | .vsuper _ => .superV

/-- Keys of an association list are pairwise distinct — what is true of
every Python dict, which the lists model. -/
def keysUnique {α : Type} : List (String × α) → Bool
  | [] => true
  | (k, _) :: rest => !(rest.any (fun kv => kv.1 == k)) && keysUnique rest

/-- Well-formedness of a value for the equality claims: the method table
of a class and the field mapping of an instance model Python dicts, so
their keys are unique. -/
def dictsWF : Value → Bool
  | .vcls c => keysUnique c.methods
  | .vinst i => keysUnique i.fields
  | _ => true

/-- A NaN-valued number. -/
def isNanV : Value → Bool
  | .vfloat .nan => true
  | _ => false

/-!  Fixtures for the object-model claims: a class `A` with a single
method `f`, an instance of it, and an environment holding a `LoxSuper`
proxy for `A` under the name `s` with `this` bound. -/

/-- The captured context of the sample method (one root frame). -/
def sampleCtx : Ctx := [(5, [])]

/-- A method `f` of the sample class. -/
def sampleFnF : LoxFn := .mk 10 "f" [] [] sampleCtx

/-- A class `A` whose method table holds `f`. -/
def sampleClsA : LoxCls := .mk 20 "A" [("f", sampleFnF)] none

/-- An instance of `A`. -/
def sampleInst : LoxInst := .mk 30 sampleClsA []

/-- A state in which `s` is a `LoxSuper` proxy wrapping `A` and `this` is
the sample instance. -/
def sampleStSuper : St :=
  ⟨[(0, [("s", .vsuper sampleClsA), ("this", .vinst sampleInst)])], [], 100⟩

/-!  C1 fixtures: the loop `while (i < m) i = i + 1;`. -/

/-- The loop condition `i < m`. -/
def c1cond (m : ℤ) : Expr := .binop (.var "i") (.lit (.pint m)) .lt

/-- The loop body `i = i + 1;`. -/
def c1body : Stmt := .exprStmt (.assign "i" (.binop (.var "i") (.lit (.pint 1)) .add))

/-- A state whose only binding is the counter `i`. -/
def c1st (k : ℤ) : St := ⟨[(0, [("i", .vint k)])], [], 1⟩

/-!  Claim theorems. -/

/-- C2: for every pair of numeric operands whose divisor is zero-valued,
`lox_truediv` raises no error and returns the NaN float, and the program
`print 1/0;` prints the single line "nan". -/
theorem C2_div_by_zero_yields_nan :
    (∀ a b : Value, isPyNumber a = true → isPyNumber b = true →
      numEqZero b = true → lox_truediv a b = .ok (.vfloat .nan)) ∧
    programOut 10 [.print (.binop (.lit (.pint 1)) (.lit (.pint 0)) .div)]
      = .ok ["nan"] := by
  constructor
  · intro a b ha hb hz
    simp [lox_truediv, ha, hb, hz]
  · rfl

/-- C2 witness: `1 / 0` is `nan`. -/
theorem C2_div_by_zero_yields_nan_witness :
    isPyNumber (.vint 1) = true ∧ isPyNumber (.vint 0) = true ∧
    numEqZero (.vint 0) = true ∧
    lox_truediv (.vint 1) (.vint 0) = .ok (.vfloat .nan) :=
  ⟨rfl, rfl, rfl, C2_div_by_zero_yields_nan.1 _ _ rfl rfl rfl⟩

/-- C4: contrary to the claim that `*` and `/` raise a runtime type error
whenever an operand is a boolean, Python's `bool` passes the sources'
`isinstance(x, (int, float))` test, so `lox_mul` and `lox_truediv` accept
booleans (`True * 3` is `3`, `True / 2` is `0.5`), while `lox_sub` — which
checks booleans explicitly — does reject them, as do all three operators
for strings and nil. -/
theorem C4_mul_div_accept_booleans :
    lox_mul (.vbool true) (.vint 3) = .ok (.vint 3) ∧
    lox_truediv (.vbool true) (.vint 2) = .ok (.vfloat (.finite (1 / 2))) ∧
    lox_sub (.vbool true) (.vint 3)
      = .error (.loxError "Operands must be numbers.") ∧
    lox_mul (.vstr "a") (.vint 3)
      = .error (.loxError "Operação '*' não suportada entre str e int") ∧
    lox_truediv (.vint 3) .vnil
      = .error (.loxError "Operação '/' não suportada entre int e NoneType") :=
  ⟨rfl, rfl, rfl, rfl, rfl⟩

/-- C5: `lox_add` succeeds exactly when both operands are numbers or both
are strings — booleans, though numeric for `isinstance`, are rejected
first — and returns the sum, respectively the concatenation. -/
theorem C5_add_number_or_string_only :
    ∀ a b : Value,
      ((∃ v, lox_add a b = .ok v) ↔
        ((isNumV a = true ∧ isNumV b = true) ∨ (isStrV a = true ∧ isStrV b = true))) ∧
      (isNumV a = true → isNumV b = true → lox_add a b = .ok (pyAdd a b)) ∧
      (∀ s t : String, a = .vstr s → b = .vstr t →
        lox_add a b = .ok (.vstr (s ++ t))) := by
  intro a b
  refine ⟨?_, ?_, ?_⟩ <;>
    cases a <;> cases b <;>
      simp [lox_add, isNumV, isStrV, isBoolV, isPyNumber]

/-- C10: `lox_neg` sends every zero-valued numeric operand — the int `0`,
the float `0.0`, and `-0.0` itself — to `-0.0`, so negation is not an
involution at zero: `print --0;` prints "-0", not "0". -/
theorem C10_negation_of_zero_is_negative_zero :
    (∀ v : Value, isPyNumber v = true → numEqZero v = true →
      lox_neg v = .ok (.vfloat .negZero)) ∧
    lox_neg (.vint 0) = .ok (.vfloat .negZero) ∧
    lox_neg (.vfloat .negZero) = .ok (.vfloat .negZero) ∧
    programOut 10 [.print (.unop .neg (.unop .neg (.lit (.pint 0))))]
      = .ok ["-0"] ∧
    showVal (.vfloat .negZero) = "-0" ∧ showVal (.vint 0) = "0" := by
  refine ⟨?_, rfl, rfl, rfl, rfl, rfl⟩
  intro v hv hz
  simp [lox_neg, hv, hz]

/-- C10 witness: the double negation of `0` shows as "-0". -/
theorem C10_negation_of_zero_is_negative_zero_witness :
    isPyNumber (.vfloat .negZero) = true ∧ numEqZero (.vfloat .negZero) = true ∧
    lox_neg (.vfloat .negZero) = .ok (.vfloat .negZero) :=
  ⟨rfl, rfl, C10_negation_of_zero_is_negative_zero.1 _ rfl rfl⟩

/-- In an association list with unique keys, looking a member's key up
finds that member's value. -/
theorem assocLookup_of_mem {α : Type} {l : List (String × α)} {k : String}
    {v : α} (hu : keysUnique l = true) (hm : (k, v) ∈ l) :
    assocLookup k l = some v := by
  induction l with
  | nil => cases hm
  | cons hd tl ih =>
    obtain ⟨k0, v0⟩ := hd
    simp only [keysUnique, Bool.and_eq_true, Bool.not_eq_true'] at hu
    rcases List.mem_cons.mp hm with h | h
    · cases h
      simp [assocLookup]
    · have hk : (k == k0) = false := by
        cases hbe : k == k0
        · rfl
        · exfalso
          have : k = k0 := by simpa using hbe
          subst this
          have : tl.any (fun kv => kv.1 == k) = true :=
            List.any_eq_true.mpr ⟨(k, v), h, by simp⟩
          rw [this] at hu
          exact absurd hu.1 (by simp)
      simp [assocLookup, hk, ih hu.2 h]

/-- Every value is `is`-or-`==` to itself (a container slot compared with
itself). -/
theorem valueIsOrEq_self (v : Value) : (valueIs v v || valueEq v v) = true := by
  cases v with
  | vnil => rfl
  | vbool b => simp [valueIs]
  | vint n => simp [valueIs]
  | vfloat f => simp [valueIs]
  | vstr s => simp [valueIs]
  | vfn f => simp [valueIs]
  | vcls c => simp [valueIs]
  | vinst i => simp [valueIs]
  | vsuper c => simp [valueIs, valueEq, clsIsOrEq]
  | vnative i j => simp [valueIs]

/-- A field mapping with unique keys is `fieldsSub` of itself. -/
theorem fieldsSub_self {d : List (String × Value)} (hu : keysUnique d = true) :
    fieldsSub d d = true := by
  have gen : ∀ d1 d2 : List (String × Value),
      (∀ k v, (k, v) ∈ d1 → assocLookup k d2 = some v) → fieldsSub d1 d2 = true := by
    intro d1
    induction d1 with
    | nil => intro d2 _; rfl
    | cons hd tl ih =>
      intro d2 hmem
      obtain ⟨k, v⟩ := hd
      have hk : assocLookup k d2 = some v := hmem k v (List.mem_cons_self _ _)
      simp only [fieldsSub, hk, Bool.and_eq_true]
      exact ⟨valueIsOrEq_self v, ih d2 (fun k' v' h => hmem k' v' (List.mem_cons_of_mem _ h))⟩
  exact gen d d (fun k v h => assocLookup_of_mem hu h)

/-- A method table with unique keys is dict-equal to itself. -/
theorem methodsDictEq_self {m : List (String × LoxFn)} (hu : keysUnique m = true) :
    methodsDictEq m m = true := by
  simp only [methodsDictEq, Bool.and_eq_true, beq_self_eq_true, true_and]
  refine List.all_eq_true.mpr ?_
  intro kv hkv
  obtain ⟨k, fv⟩ := kv
  rw [assocLookup_of_mem hu hkv]
  simp [fnIsOrEq]

/-- C3 counterexample: reflexivity fails on the code — NaN is a runtime
value (the result of `1/0`), and `lox_eq(nan, nan)` is false, because the
type check passes and Python's `nan == nan` is false. -/
theorem C3_counterexample_nan_not_self_equal :
    lox_eq (.vfloat .nan) (.vfloat .nan) = .vbool false ∧
    lox_truediv (.vint 1) (.vint 0) = .ok (.vfloat .nan) :=
  ⟨rfl, rfl⟩

/-- C3 amended: `lox_eq` is reflexive on every runtime value except
NaN-valued numbers (for a class or instance, granted the well-formedness
every Python dict has — unique keys); values of differing spec-level
variants are never equal; and functions compare by object identity, so
structurally identical functions with distinct identities are unequal. -/
theorem C3_equality_reflexive_variant_strict :
    (∀ v : Value, dictsWF v = true → isNanV v = false →
      lox_eq v v = .vbool true) ∧
    (∀ a b : Value, specVariant a ≠ specVariant b →
      lox_eq a b = .vbool false) ∧
    (∀ f g : LoxFn, f.id ≠ g.id →
      lox_eq (.vfn f) (.vfn g) = .vbool false) := by
  refine ⟨?_, ?_, ?_⟩
  · intro v hwf hnan
    cases v with
    | vnil => rfl
    | vbool b => simp [lox_eq, pyType, valueEq, pyNumEq, numRat]
    | vint n => simp [lox_eq, pyType, valueEq, pyNumEq, numRat]
    | vfloat fl =>
      cases fl with
      | finite q => simp [lox_eq, pyType, valueEq, pyNumEq, numRat]
      | negZero => rfl
      | nan => simp [isNanV] at hnan
    | vstr s => simp [lox_eq, pyType, valueEq]
    | vfn f => simp [lox_eq, pyType]
    | vcls c =>
      obtain ⟨i, n, m, b⟩ := c
      simp only [dictsWF, LoxCls.methods] at hwf
      have hm := methodsDictEq_self hwf
      cases b with
      | none => simp [lox_eq, pyType, valueEq, clsEq, hm]
      | some bc => simp [lox_eq, pyType, valueEq, clsEq, hm]
    | vinst i =>
      obtain ⟨n, c, fs⟩ := i
      simp only [dictsWF, LoxInst.fields] at hwf
      have hf := fieldsSub_self hwf
      simp [lox_eq, pyType, valueEq, clsIsOrEq, hf]
    | vsuper c => simp [lox_eq, pyType, valueEq, clsIsOrEq]
    | vnative i inst => simp [lox_eq, pyType, valueEq]
  · intro a b h
    cases a <;> cases b <;>
      first
        | exact absurd rfl h
        | simp [lox_eq, pyType]
  · intro f g h
    simp [lox_eq, pyType, h]

/-- C3 amended witness: reflexivity at a concrete instance value and
variant-strictness at a concrete pair. -/
theorem C3_equality_reflexive_variant_strict_witness :
    dictsWF (.vinst (.mk 7 (.mk 1 "A" [] none) [("x", .vint 4)])) = true ∧
    isNanV (.vinst (.mk 7 (.mk 1 "A" [] none) [("x", .vint 4)])) = false ∧
    lox_eq (.vinst (.mk 7 (.mk 1 "A" [] none) [("x", .vint 4)]))
      (.vinst (.mk 7 (.mk 1 "A" [] none) [("x", .vint 4)])) = .vbool true ∧
    lox_eq (.vbool true) (.vint 1) = .vbool false :=
  ⟨rfl, rfl, C3_equality_reflexive_variant_strict.1 _ rfl rfl,
    C3_equality_reflexive_variant_strict.2.1 _ _ (by simp [specVariant])⟩

/-- C6 counterexample: with `s` bound to a `SuperProxy` wrapping `A` and
`this` in scope, evaluating the `Getattr` expression `s.f` returns the raw
method from `A`'s table — its captured context binds no `this` — whereas a
method bound to the enclosing `this` (as `LoxFunction.bind` produces)
carries `this` in its context.  The claim's "bound to the enclosing
`this`" is false: `Getattr.eval`'s `LoxSuper` branch never calls `bind`. -/
theorem C6_counterexample_super_getattr_unbound :
    evalExpr 5 (.getattr (.var "s") "f") sampleStSuper
      = .ok (.vfn sampleFnF, sampleStSuper) ∧
    ctxLookup sampleFnF.ctx "this" = none ∧
    ctxLookup ((bindFn sampleStSuper sampleFnF (.vinst sampleInst)).1).ctx "this"
      = some (.vinst sampleInst) :=
  ⟨rfl, rfl, rfl⟩

/-- C6 amended: for every `Getattr` expression whose receiver evaluates to
a `SuperProxy`, the result is the named method resolved through the
wrapped base class's method table but returned unbound (no `this` is
attached); it is the `Super` expression node, not `Getattr`, that binds
the resolved method to the enclosing `this`. -/
theorem C6_super_getattr_resolves_unbound :
    (∀ (f : ℕ) (e : Expr) (a : String) (c : LoxCls) (st st1 : St),
      evalExpr f e st = .ok (.vsuper c, st1) →
      evalExpr (f + 1) (.getattr e a) st
        = (match getMethodE c a with
           | .ok m => .ok (.vfn m, st1)
           | .error err => .error err)) ∧
    (∀ (f : ℕ) (mname : String) (c : LoxCls) (tv : Value) (st : St) (m : LoxFn),
      ctxLookup st.ctx "super" = some (.vcls c) →
      ctxLookup st.ctx "this" = some tv →
      getMethodE c mname = .ok m →
      evalExpr (f + 1) (.sup mname) st
        = .ok (.vfn (bindFn st m tv).1, (bindFn st m tv).2)) := by
  constructor
  · intro f e a c st st1 h
    simp only [evalExpr, h]
    cases getMethodE c a <;> rfl
  · intro f mname c tv st m hs ht hm
    simp only [evalExpr, hs, ht, hm]

/-- C6 amended witness: at the sample state, `s.f` yields `A`'s raw `f`,
and the `super` expression node yields the bound version. -/
theorem C6_super_getattr_resolves_unbound_witness :
    evalExpr 4 (.var "s") sampleStSuper = .ok (.vsuper sampleClsA, sampleStSuper) ∧
    evalExpr 5 (.getattr (.var "s") "f") sampleStSuper
      = (match getMethodE sampleClsA "f" with
         | .ok m => .ok (.vfn m, sampleStSuper)
         | .error err => .error err) :=
  ⟨rfl, C6_super_getattr_resolves_unbound.1 4 (.var "s") "f" sampleClsA
    sampleStSuper sampleStSuper rfl⟩

/-- C7 counterexample: `class B < nope {}` with `nope` unbound — the
superclass expression's evaluation fails with `NameError`, the bare
`except:` in `Class.eval` swallows it, and the declaration succeeds,
silently producing a class whose base is `none`; the claim requires the
declaration to fail with `RuntimeError`. -/
theorem C7_counterexample_failed_superclass_swallowed :
    evalStmt 3 (.classDecl "B" (some (.var "nope")) []) initialSt
      = .ok (.norm, ⟨[(0, [("B", .vcls (.mk 1 "B" [] none))])], [], 2⟩) ∧
    evalExpr 2 (.var "nope") initialSt
      = .error (.nameError "variável nope não existe!") ∧
    (LoxCls.mk 1 "B" [] none).base = none :=
  ⟨rfl, rfl, rfl⟩

/-- C7 amended: when the superclass expression evaluates to a non-Class
value the declaration fails with `RuntimeError` ("Superclass must be a
class."), and a `RuntimeError` raised during its evaluation propagates;
but any other evaluation failure (a `NameError`, say) is swallowed by the
bare `except:` and the declaration silently produces a class without a
superclass. -/
theorem C7_superclass_must_be_class :
    (∀ (f : ℕ) (nm : String) (ms : List (String × List String × List Stmt))
        (e : Expr) (st st1 : St) (v : Value),
      evalExpr f e st = .ok (v, st1) → (∀ c, v ≠ .vcls c) →
      evalStmt (f + 1) (.classDecl nm (some e) ms) st
        = .error (.runtimeError "Superclass must be a class.")) ∧
    (∀ (f : ℕ) (nm : String) (ms : List (String × List String × List Stmt))
        (e : Expr) (st : St) (msg : String),
      evalExpr f e st = .error (.runtimeError msg) →
      evalStmt (f + 1) (.classDecl nm (some e) ms) st
        = .error (.runtimeError msg)) ∧
    (∀ (f : ℕ) (nm : String) (ms : List (String × List String × List Stmt))
        (e : Expr) (st : St) (msg : String),
      evalExpr f e st = .error (.nameError msg) →
      evalStmt (f + 1) (.classDecl nm (some e) ms) st
        = .ok (.norm, (classCreate st nm ms none).2)) := by
  refine ⟨?_, ?_, ?_⟩
  · intro f nm ms e st st1 v h hv
    cases v with
    | vcls c => exact absurd rfl (hv c)
    | vnil => simp [evalStmt, h]
    | vbool b => simp [evalStmt, h]
    | vint n => simp [evalStmt, h]
    | vfloat fl => simp [evalStmt, h]
    | vstr s => simp [evalStmt, h]
    | vfn g => simp [evalStmt, h]
    | vinst i => simp [evalStmt, h]
    | vsuper c => simp [evalStmt, h]
    | vnative i j => simp [evalStmt, h]
  · intro f nm ms e st msg h
    simp [evalStmt, h]
  · intro f nm ms e st msg h
    simp [evalStmt, h]

/-- C7 amended witness: a numeric superclass expression fails with the
RuntimeError, at concrete inputs. -/
theorem C7_superclass_must_be_class_witness :
    evalExpr 1 (.lit (.pint 7)) initialSt = .ok (.vint 7, initialSt) ∧
    evalStmt 2 (.classDecl "B" (some (.lit (.pint 7))) []) initialSt
      = .error (.runtimeError "Superclass must be a class.") :=
  ⟨rfl, C7_superclass_must_be_class.1 1 "B" [] _ _ _ _ rfl (fun c h => by cases h)⟩

/-- C8: invoking a class always returns the newly constructed instance —
whatever the bound `init` returns, its value is discarded — and supplying
one or more arguments when no `init` exists anywhere in the inheritance
chain fails with the arity `TypeError`. -/
theorem C8_class_call_returns_instance :
    (∀ (f : ℕ) (c : LoxCls) (args : List Value) (st st' : St) (v : Value),
      loxClassCall (f + 1) c args st = .ok (v, st') →
      v = .vinst (.mk st.next c [])) ∧
    (∀ (f : ℕ) (c : LoxCls) (args : List Value) (st : St) (msg : String),
      getMethodE c "init" = .error (.semanticError msg) → args ≠ [] →
      loxClassCall (f + 1) c args st
        = .error (.typeError ("Classe " ++ c.name
            ++ " não possui método init mas recebeu " ++ toString args.length
            ++ " argumentos"))) := by
  constructor
  · intro f c args st st' v h
    simp only [loxClassCall, alloc] at h
    split at h
    · split at h
      · simp at h
        exact h.1.symm
      · simp at h
    · split at h
      · simp at h
        exact h.1.symm
      · simp at h
      · split at h
        · simp at h
          exact h.1.symm
        · simp at h
  · intro f c args st msg hg hne
    have he : args.isEmpty = false := by
      cases args
      · exact absurd rfl hne
      · rfl
    simp [loxClassCall, hg, he]

/-- C8 witness: a class with no methods, called with one argument, raises
the arity error; called with none, returns the fresh instance. -/
theorem C8_class_call_returns_instance_witness :
    getMethodE (.mk 1 "C" [] none) "init"
      = .error (.semanticError "Método 'init' não encontrado na classe 'C'") ∧
    loxClassCall 3 (.mk 1 "C" [] none) [.vint 7] initialSt
      = .error (.typeError
          "Classe C não possui método init mas recebeu 1 argumentos") ∧
    Value.vinst (.mk initialSt.next (.mk 1 "C" [] none) [])
      = .vinst (.mk initialSt.next (.mk 1 "C" [] none) []) :=
  ⟨rfl,
    C8_class_call_returns_instance.2 2 _ [.vint 7] initialSt _ rfl (by simp),
    C8_class_call_returns_instance.1 2 (.mk 1 "C" [] none) [] initialSt _ _ rfl ▸ rfl⟩

/-- C9 counterexample: inside a block, `var x = x or x;` — whose
initializer plainly references `x` — is accepted by the validator, because
`_uses_variable_in_expression` has no case for `Or` (or `And`) nodes and
falls through to `return False`; the claim says every such declaration is
rejected.  (For contrast, the direct `var x = x;` in the same position is
rejected.) -/
theorem C9_counterexample_or_initializer_accepted :
    validateVarDef "x" (.orE (.var "x") (.var "x")) [.blockA, .programA]
      = .ok () ∧
    usesVarInExpr (.orE (.var "x") (.var "x")) "x" = false ∧
    usesVarInExpr (.var "x") "x" = true ∧
    validateVarDef "x" (.var "x") [.blockA, .programA]
      = .error (.semanticError "Can't read local variable in its own initializer.") :=
  ⟨rfl, rfl, rfl, rfl⟩

/-- C9 amended: the validator rejects, before any execution, a block-scoped
variable declaration whose initializer references the variable's own name
*as detected by the recursive scan* — which covers `Var`, `BinOp`,
`UnaryOp`, `Call`, `Getattr`, `Setattr` and `Assign` nodes but misses
references under `And`/`Or` (those declarations are accepted) — and
accepts the same declaration at top level (global scope). -/
theorem C9_own_initializer_block_scoped :
    (∀ (name : String) (value : Expr) (os rest : List AncKind),
      (∀ o ∈ os, o = AncKind.otherA) →
      RESERVED_WORDS.contains name = false →
      usesVarInExpr value name = true →
      validateVarDef name value (os ++ .blockA :: rest)
        = .error (.semanticError "Can't read local variable in its own initializer.")) ∧
    (∀ (name : String) (value : Expr) (os rest : List AncKind),
      (∀ o ∈ os, o = AncKind.otherA) →
      RESERVED_WORDS.contains name = false →
      validateVarDef name value (os ++ .programA :: rest) = .ok ()) ∧
    (∀ name : String, usesVarInExpr (.var name) name = true) ∧
    (∀ (l r : Expr) (name : String),
      usesVarInExpr (.orE l r) name = false ∧ usesVarInExpr (.andE l r) name = false) := by
  have walkB : ∀ (os rest : List AncKind), (∀ o ∈ os, o = AncKind.otherA) →
      scopeWalk (os ++ .blockA :: rest)
        = .error (.semanticError "Can't read local variable in its own initializer.") := by
    intro os
    induction os with
    | nil => intro rest _; rfl
    | cons o os ih =>
      intro rest ho
      have : o = AncKind.otherA := ho o (List.mem_cons_self _ _)
      subst this
      exact ih rest (fun o h => ho o (List.mem_cons_of_mem _ h))
  have walkP : ∀ (os rest : List AncKind), (∀ o ∈ os, o = AncKind.otherA) →
      scopeWalk (os ++ .programA :: rest) = .ok () := by
    intro os
    induction os with
    | nil => intro rest _; rfl
    | cons o os ih =>
      intro rest ho
      have : o = AncKind.otherA := ho o (List.mem_cons_self _ _)
      subst this
      exact ih rest (fun o h => ho o (List.mem_cons_of_mem _ h))
  refine ⟨?_, ?_, ?_, ?_⟩
  · intro name value os rest ho hres huse
    have hmem : name ∉ RESERVED_WORDS := by simpa using hres
    simp [validateVarDef, hmem, huse, walkB os rest ho]
  · intro name value os rest ho hres
    have hmem : name ∉ RESERVED_WORDS := by simpa using hres
    by_cases huse : usesVarInExpr value name = true
    · simp [validateVarDef, hmem, huse, walkP os rest ho]
    · simp [validateVarDef, hmem, huse]
  · intro name
    simp [usesVarInExpr]
  · intro l r name
    exact ⟨rfl, rfl⟩

/-- C9 amended witness: `var x = x;` rejected inside a block, accepted at
top level, at concrete inputs. -/
theorem C9_own_initializer_block_scoped_witness :
    RESERVED_WORDS.contains "x" = false ∧
    usesVarInExpr (.var "x") "x" = true ∧
    validateVarDef "x" (.var "x") [.blockA, .programA]
      = .error (.semanticError "Can't read local variable in its own initializer.") ∧
    validateVarDef "x" (.var "x") [.programA] = .ok () :=
  ⟨rfl, rfl,
    C9_own_initializer_block_scoped.1 "x" (.var "x") [] [.programA]
      (fun o h => by cases h) rfl rfl,
    C9_own_initializer_block_scoped.2.1 "x" (.var "x") [] []
      (fun o h => by cases h) rfl⟩

/-- Evaluating the loop condition reads the counter and compares. -/
theorem c1_cond_eval (f : ℕ) (k m : ℤ) :
    evalExpr (f + 2) (c1cond m) (c1st k)
      = .ok (.vbool (decide (k < m)), c1st k) := by
  show evalExpr ((f + 1) + 1) (c1cond m) (c1st k) = _
  simp [c1cond, c1st, evalExpr, ctxLookup, assocLookup, primToValue, applyBinOp,
    lox_lt, isPyNumber, pyNumLt, numRat]

/-- Evaluating the loop body increments the counter in place. -/
theorem c1_body_eval (f : ℕ) (k : ℤ) :
    evalStmt (f + 4) c1body (c1st k) = .ok (.norm, c1st (k + 1)) := by
  show evalStmt (((f + 3)) + 1) c1body (c1st k) = _
  simp [c1body, c1st, evalStmt, evalExpr, ctxLookup, assocLookup, primToValue,
    applyBinOp, lox_add, isBoolV, isPyNumber, pyAdd, intLike, ctxAssign, dictUpsert]

/-- Running the loop with `j` iterations left: `While.eval` finishes
normally having activated itself `j + 1` times. -/
theorem c1_loop : ∀ (j : ℕ) (k : ℤ),
    whileEvalDepth (j + 5) (c1cond (k + j)) c1body (c1st k)
      = .ok (.norm, c1st (k + j), j + 1) := by
  intro j
  induction j with
  | zero =>
    intro k
    show whileEvalDepth (4 + 1) (c1cond (k + 0)) c1body (c1st k) = _
    rw [whileEvalDepth]
    have hc := c1_cond_eval 2 k (k + 0)
    rw [show (2 + 2 : ℕ) = 4 from rfl] at hc
    rw [hc]
    simp [truthy]
  | succ j ih =>
    intro k
    show whileEvalDepth ((j + 5) + 1) (c1cond (k + (j + 1 : ℕ))) c1body (c1st k) = _
    rw [whileEvalDepth]
    have hc := c1_cond_eval (j + 3) k (k + (j + 1 : ℕ))
    rw [show (j + 3) + 2 = j + 5 from rfl] at hc
    have hlt : k < k + ((j + 1 : ℕ) : ℤ) := by push_cast; omega
    have hb := c1_body_eval (j + 1) k
    rw [show (j + 1) + 4 = j + 5 from rfl] at hb
    have ihk := ih (k + 1)
    rw [show (k + 1) + (j : ℤ) = k + ((j + 1 : ℕ) : ℤ) by push_cast; ring] at ihk
    push_cast at hc hlt ihk
    simp [hc, decide_eq_true hlt, truthy, hb, ihk]

/-- C1: contrary to the claim, `While.eval` is not an iterative construct —
it calls `self.eval(ctx)` once per iteration, so running the loop
`while (i < n) i = i + 1;` from `i = 0` performs `n` iterations and nests
`n + 1` activations of `While.eval` on the native call stack: the stack
growth is linear in the iteration count, not independent of it (CPython's
default recursion limit makes a loop of a few thousand iterations raise
`RecursionError`). -/
theorem C1_while_recursion_depth_linear (n : ℕ) :
    whileEvalDepth (n + 5) (c1cond (n : ℤ)) c1body (c1st 0)
      = .ok (.norm, c1st (n : ℤ), n + 1) := by
  have h := c1_loop n 0
  simpa using h

/-- The instrumented `whileEvalDepth` is `evalStmt`'s `While` case with a
depth count attached: forgetting the count gives exactly the evaluator's
result. -/
theorem whileEvalDepth_agrees : ∀ (f : ℕ) (c : Expr) (b : Stmt) (st : St),
    evalStmt (f + 1) (.whileS c b) st
      = (match whileEvalDepth (f + 1) c b st with
         | .ok (fl, st', _) => .ok (fl, st')
         | .error e => .error e) := by
  intro f
  induction f with
  | zero =>
    intro c b st
    rw [evalStmt, whileEvalDepth]
    cases evalExpr 0 c st with
    | error e => rfl
    | ok p =>
      obtain ⟨cv, st1⟩ := p
      by_cases ht : truthy cv = true
      · simp only [ht, if_true]
        cases evalStmt 0 b st1 with
        | error e => rfl
        | ok q =>
          obtain ⟨fl, st2⟩ := q
          cases fl <;> rfl
      · simp only [Bool.not_eq_true] at ht
        simp only [ht, Bool.false_eq_true, if_false]
  | succ f ih =>
    intro c b st
    rw [evalStmt, whileEvalDepth]
    cases evalExpr (f + 1) c st with
    | error e => rfl
    | ok p =>
      obtain ⟨cv, st1⟩ := p
      by_cases ht : truthy cv = true
      · simp only [ht, if_true]
        cases evalStmt (f + 1) b st1 with
        | error e => rfl
        | ok q =>
          obtain ⟨fl, st2⟩ := q
          cases fl with
          | ret v => rfl
          | norm =>
            show evalStmt (f + 1) (.whileS c b) st2
              = (match (match whileEvalDepth (f + 1) c b st2 with
                        | Except.error e => Except.error e
                        | Except.ok (fl, st3, d) => Except.ok (fl, st3, d + 1) :
                      Except LoxErr (LFlow × St × ℕ)) with
                 | Except.ok (fl, st', _) => Except.ok (fl, st')
                 | Except.error e => (Except.error e : Except LoxErr (LFlow × St)))
            rw [ih c b st2]
            cases whileEvalDepth (f + 1) c b st2 with
            | error e => rfl
            | ok r =>
              obtain ⟨fl3, st3, d⟩ := r
              rfl
      · simp only [Bool.not_eq_true] at ht
        simp only [ht, Bool.false_eq_true, if_false]
